import Mathlib

/-!
Shallow embedding of the one-word-story session engine
(`src/services/gameService.ts`) together with the page-level glue it is
called from, and proofs about the claims of the specification.

JS strings are modelled as lists of UTF-16 code units (`List Nat`);
the game document is an explicit structure, the Firebase `players`
record is an association list keyed by player id, and the in-place
transaction functions of the source become pure `GameState → GameState`
functions.  The `Math.random()`-driven shuffles are passed in as list
parameters; theorems that depend on them carry a `List.Perm` hypothesis
stating that the shuffle is a permutation of the active ids, exactly
what `playerIds.sort(() => Math.random() - 0.5)` produces.
-/

namespace OneWordStory

/-- Convenience: build the code-unit list of a (ASCII) string literal. -/
def strCodes (s : String) : List Nat := s.toList.map Char.toNat

/-- Model of the JS whitespace test used by `String.prototype.trim`
(ASCII whitespace plus NBSP). -/
def jsIsSpace (c : Nat) : Bool :=
  c == 9 || c == 10 || c == 11 || c == 12 || c == 13 || c == 32 || c == 160

/-- Model of `text.trim()`: strip whitespace from both ends. -/
def jsTrim (l : List Nat) : List Nat :=
  ((l.dropWhile jsIsSpace).reverse.dropWhile jsIsSpace).reverse

/-- Model of `ch.toUpperCase()` on a single code unit (ASCII range). -/
def jsToUpper (c : Nat) : Nat := if 97 ≤ c ∧ c ≤ 122 then c - 32 else c

/-- Model of `ch.toLowerCase()` on a single code unit (ASCII range). -/
def jsToLower (c : Nat) : Nat := if 65 ≤ c ∧ c ≤ 90 then c + 32 else c

/-- Model of `s.charAt(0).f() + s.slice(1)`: apply `f` to the first code unit. -/
def mapHead (f : Nat → Nat) : List Nat → List Nat
  | [] => []
  | c :: cs => f c :: cs

/-- `status` enum of `types/index.ts`. -/
inductive GameStatus
  | LOBBY
  | PLAYING
  | PAUSED
  | LOCKED
  | ENDED
deriving DecidableEq

/-- `GameSettings` of `types/index.ts`. -/
structure GameSettings where
  wordLimit : Nat
  turnTimeLimit : Nat
deriving DecidableEq

/-- `Player` of `types/index.ts`; the optional stats fields are `Option`s,
`none` standing for a field that is absent (`undefined`) in the document. -/
structure Player where
  id : String
  name : String
  color : String
  isActive : Bool
  lastSeen : Nat
  totalResponseTime : Option Nat := none
  turnCount : Option Nat := none
  lastTurnTime : Option Nat := none
deriving DecidableEq

/-- `StorySegment` of `types/index.ts`; `metadataResponseTime` models the
optional `metadata.responseTime`. -/
structure StorySegment where
  id : String
  text : List Nat
  authorId : String
  color : String
  timestamp : Nat
  metadataResponseTime : Option Nat := none
deriving DecidableEq

/-- `GameState` of `types/index.ts`; the nullable `story` and `players`
nodes are modelled as lists (empty list for `null`), `players` as an
association list in insertion order, matching `Object.keys` order. -/
structure GameState where
  status : GameStatus
  currentPlayerId : Option String
  turnBag : List String
  lastPlayerId : Option String
  timer : Nat
  timerStartedAt : Option Nat
  settings : GameSettings
  story : List StorySegment
  players : List (String × Player)
deriving DecidableEq

/-- Model of `players[pid]`: first entry with the given key. -/
def lookupPlayer : List (String × Player) → String → Option Player
  | [], _ => none
  | kv :: rest, pid => if kv.1 = pid then some kv.2 else lookupPlayer rest pid

/-- Model of `players[pid]?.isActive` (false when the id is absent). -/
def isActiveId (ps : List (String × Player)) (pid : String) : Bool :=
  match lookupPlayer ps pid with
  | some p => p.isActive
  | none => false

/-- Model of `Object.keys(players).filter(id => players[id].isActive)`. -/
def activeIds (ps : List (String × Player)) : List String :=
  (ps.map (fun kv => kv.1)).filter (fun pid => isActiveId ps pid)

/-- `PLAYER_COLORS` of `lib/constants.ts`. -/
def PLAYER_COLORS : List String :=
  ["#60A5FA", "#F87171", "#34D399", "#A78BFA", "#FBBF24", "#2DD4BF",
   "#F472B6", "#818CF8", "#38BDF8", "#FCD34D", "#C4B5FD", "#5EEAD4"]

/-- The transaction function of `joinGame` on the `players` node
(`gameService.ts`): first player, idempotent rejoin, room-full abort,
otherwise append a brand-new player. -/
def joinGameTxn (currentPlayers : List (String × Player))
    (newPlayerId playerName : String) (now : Nat) : List (String × Player) :=
  if currentPlayers.isEmpty then
    [(newPlayerId,
      { id := newPlayerId, name := playerName.take 12,
        color := PLAYER_COLORS.getD 0 "", isActive := true, lastSeen := now })]
  else if (lookupPlayer currentPlayers newPlayerId).isSome then
    currentPlayers.map (fun kv =>
      if kv.1 = newPlayerId then
        (kv.1, { kv.2 with isActive := true, lastSeen := now,
                           name := playerName.take 12 })
      else kv)
  else if 20 ≤ currentPlayers.length then
    currentPlayers
  else
    currentPlayers ++ [(newPlayerId,
      { id := newPlayerId, name := playerName.take 12,
        color := PLAYER_COLORS.getD (currentPlayers.length % PLAYER_COLORS.length) "",
        isActive := true, lastSeen := now })]

/-- `startGame` of `gameService.ts`.  `shuffled` stands for the result of
`playerIds.sort(() => Math.random() - 0.5)` over the active ids; `now`
for `Date.now()`.  With fewer than two active players the function
returns without writing.  Note the hardcoded `timer := 30`, which the
source comments mark as "should come from settings". -/
def startGame (g : GameState) (shuffled : List String) (now : Nat) : GameState :=
  if (activeIds g.players).length < 2 then g
  else
    { g with
      status := GameStatus.PLAYING
      currentPlayerId := shuffled.head?
      turnBag := shuffled.tail
      lastPlayerId := none
      timer := 30
      timerStartedAt := some now }

/-- The continuity swap inside `nextTurn`'s refill: if the freshly
shuffled bag starts with the current player and has a second element,
swap positions 0 and 1. -/
def adjacencySwap (cur : Option String) (bag : List String) : List String :=
  match cur with
  | none => bag
  | some c =>
    match bag with
    | a :: b :: rest => if a = c then b :: a :: rest else a :: b :: rest
    | _ => bag

/-- `nextTurn`'s `nextBag` after the refill step: if the stored bag is
empty, refill with the shuffled active ids and apply the adjacency swap;
otherwise keep the stored bag. -/
def refillBag (g : GameState) (shuffle1 : List String) : List String :=
  if g.turnBag.isEmpty then adjacencySwap g.currentPlayerId shuffle1 else g.turnBag

/-- `nextTurn`'s `nextBag` after the stale filter: drop every id whose
player is missing or inactive (`players[id]?.isActive`). -/
def filteredBag (g : GameState) (shuffle1 : List String) : List String :=
  (refillBag g shuffle1).filter (fun pid => isActiveId g.players pid)

/-- `nextTurn`'s `nextBag` right before the shift: emergency refill with a
fresh shuffle when the stale filter emptied the bag. -/
def nextBag (g : GameState) (shuffle1 shuffle2 : List String) : List String :=
  if (filteredBag g shuffle1).isEmpty then shuffle2 else filteredBag g shuffle1

/-- The transaction function of `nextTurn` (`gameService.ts`): pause when
fewer than two players are active, otherwise refill the bag if empty
(with the adjacency swap), filter out inactive ids, emergency-refill if
that emptied it, and shift the head as the next player.  `shuffle1` and
`shuffle2` stand for the two `activeIds.sort(() => Math.random() - 0.5)`
results; `now` for `Date.now()`.  The source assigns
`game.lastPlayerId = game.currentPlayerId` only after overwriting
`game.currentPlayerId` with the freshly shifted player, so both end up
holding the newly selected player. -/
def nextTurn (g : GameState) (shuffle1 shuffle2 : List String) (now : Nat) : GameState :=
  if (activeIds g.players).length < 2 then
    { g with status := GameStatus.PAUSED, currentPlayerId := none }
  else
    { g with
      currentPlayerId := (nextBag g shuffle1 shuffle2).head?
      turnBag := (nextBag g shuffle1 shuffle2).tail
      lastPlayerId := (nextBag g shuffle1 shuffle2).head?
      timerStartedAt := some now
      timer := if g.settings.turnTimeLimit = 0 then 30 else g.settings.turnTimeLimit }

/-- The capitalization condition of `submitWords`' story transaction:
capitalize when there is no previous segment or the previous segment's
trimmed text's last character (`slice(-1)`) is one of `. ! ? :`
(`includes` is false for the empty string and for `null`). -/
def shouldCapitalize (prevText : Option (List Nat)) : Bool :=
  let lastChar : Option Nat :=
    match prevText with
    | some s => (jsTrim s).getLast?
    | none => none
  prevText.isNone ||
    (match lastChar with
     | some c => [46, 33, 63, 58].contains c
     | none => false)

/-- The capitalization logic of `submitWords`' story transaction as a pure
function of the previous segment's text (or `none`) and the new text:
trim, then upper- or lowercase the first character when nonempty. -/
def normalizeText (prevText : Option (List Nat)) (text : List Nat) : List Nat :=
  let finalText := jsTrim text
  if 0 < finalText.length then
    if shouldCapitalize prevText then mapHead jsToUpper finalText
    else mapHead jsToLower finalText
  else finalText

/-- `submitWords` of `gameService.ts` (signature per its caller
`submitWords(gameId, playerId, text)`): read the submitter's color
(`"#000000"` when absent), append the normalized segment to the story in
one transaction, then advance the turn via `nextTurn`.  `segId` stands
for the generated `uuidv4()`, `now` for `Date.now()` at the push, and
`shuffle1`, `shuffle2`, `now2` are `nextTurn`'s parameters. -/
def submitWords (g : GameState) (playerId : String) (text : List Nat)
    (segId : String) (now : Nat) (shuffle1 shuffle2 : List String)
    (now2 : Nat) : GameState :=
  let playerColor :=
    match lookupPlayer g.players playerId with
    | some p => p.color
    | none => "#000000"
  let prevText := (g.story.getLast?).map (fun seg => seg.text)
  let story2 := g.story ++
    [{ id := segId, text := normalizeText prevText text,
       authorId := playerId, color := playerColor, timestamp := now }]
  nextTurn { g with story := story2 } shuffle1 shuffle2 now2

/-- `leaveGame` of `gameService.ts`: `update(players/{pid}, {isActive:false})`,
i.e. flip the named player's `isActive` flag and touch nothing else. -/
def leaveGame (g : GameState) (playerId : String) : GameState :=
  { g with players := g.players.map (fun kv =>
      if kv.1 = playerId then (kv.1, { kv.2 with isActive := false }) else kv) }

/-- The capitalization condition as the spec words it: capitalize iff there
is no previous segment, or the previous segment's trimmed text ends in one
of the characters `.` (46), `!` (33), `?` (63), `:` (58). -/
def specShouldCapitalize (prevText : Option (List Nat)) : Bool :=
  match prevText with
  | none => true
  | some s =>
    ((jsTrim s).getLast? == some 46) || ((jsTrim s).getLast? == some 33) ||
    ((jsTrim s).getLast? == some 63) || ((jsTrim s).getLast? == some 58)

/-! ### Concrete documents used as counterexamples and witnesses -/

def pAlice : Player :=
  { id := "alice", name := "Alice", color := "#60A5FA", isActive := true, lastSeen := 0 }

def pBob : Player :=
  { id := "bob", name := "Bob", color := "#F87171", isActive := true, lastSeen := 0 }

def pCarol : Player :=
  { id := "carol", name := "Carol", color := "#34D399", isActive := true, lastSeen := 0,
    totalResponseTime := some 5000, turnCount := some 2 }

/-- A PLAYING document where it is Bob's turn; Alice is in the bag. -/
def gC1 : GameState :=
  { status := GameStatus.PLAYING, currentPlayerId := some "bob", turnBag := ["alice"],
    lastPlayerId := none, timer := 30, timerStartedAt := some 0,
    settings := { wordLimit := 1, turnTimeLimit := 30 }, story := [],
    players := [("alice", pAlice), ("bob", pBob)] }

/-- A PLAYING document where it is Carol's turn and Carol has accumulated
stats; `turnTimeLimit` is 30 seconds. -/
def gC2 : GameState :=
  { status := GameStatus.PLAYING, currentPlayerId := some "carol", turnBag := ["bob"],
    lastPlayerId := none, timer := 30, timerStartedAt := some 0,
    settings := { wordLimit := 1, turnTimeLimit := 30 }, story := [],
    players := [("bob", pBob), ("carol", pCarol)] }

/-- A PLAYING document with exactly two active players. -/
def gC3 : GameState :=
  { status := GameStatus.PLAYING, currentPlayerId := some "alice", turnBag := ["bob"],
    lastPlayerId := none, timer := 30, timerStartedAt := some 0,
    settings := { wordLimit := 1, turnTimeLimit := 30 }, story := [],
    players := [("alice", pAlice), ("bob", pBob)] }

/-- A players node with one active player whose accumulated total is 12000ms. -/
def psC4 : List (String × Player) :=
  [("alice", { pAlice with totalResponseTime := some 12000 })]

/-- A PLAYING document where it is Alice's turn and Bob is next in the bag. -/
def gC5 : GameState :=
  { status := GameStatus.PLAYING, currentPlayerId := some "alice", turnBag := ["bob"],
    lastPlayerId := none, timer := 30, timerStartedAt := some 0,
    settings := { wordLimit := 1, turnTimeLimit := 30 }, story := [],
    players := [("alice", pAlice), ("bob", pBob)] }

/-- A LOBBY document with two active players and `turnTimeLimit = 60`. -/
def gC6 : GameState :=
  { status := GameStatus.LOBBY, currentPlayerId := none, turnBag := [],
    lastPlayerId := none, timer := 0, timerStartedAt := none,
    settings := { wordLimit := 1, turnTimeLimit := 60 }, story := [],
    players := [("alice", pAlice), ("bob", pBob)] }

/-- A LOBBY document with a single active player (start must be a no-op). -/
def gC6solo : GameState :=
  { status := GameStatus.LOBBY, currentPlayerId := none, turnBag := [],
    lastPlayerId := none, timer := 0, timerStartedAt := none,
    settings := { wordLimit := 1, turnTimeLimit := 60 }, story := [],
    players := [("alice", pAlice)] }

/-- A PLAYING document with an empty bag (forces a reshuffle) and a stale
inactive id would be filtered; two active players. -/
def gC7 : GameState :=
  { status := GameStatus.PLAYING, currentPlayerId := some "alice", turnBag := [],
    lastPlayerId := none, timer := 30, timerStartedAt := some 0,
    settings := { wordLimit := 1, turnTimeLimit := 30 }, story := [],
    players := [("alice", pAlice), ("bob", pBob)] }

/-- Alice with fully populated stats fields. -/
def pAliceStats : Player :=
  { pAlice with totalResponseTime := some 1500, turnCount := some 1,
                lastTurnTime := some 1500 }

/-- A PLAYING document with fully populated player stats. -/
def gC10 : GameState :=
  { status := GameStatus.PLAYING, currentPlayerId := some "bob", turnBag := ["alice"],
    lastPlayerId := some "carol", timer := 30, timerStartedAt := some 7,
    settings := { wordLimit := 2, turnTimeLimit := 20 },
    story := [{ id := "s0", text := strCodes "Once", authorId := "carol",
                color := "#34D399", timestamp := 3 }],
    players := [("alice", pAliceStats), ("bob", pBob), ("carol", pCarol)] }

/-! ### Helper lemmas on trimming and case mapping -/

theorem dropWhile_head_false {p : Nat → Bool} {l : List Nat} {c : Nat}
    (h : (l.dropWhile p).head? = some c) : p c = false := by
  induction l with
  | nil => simp [List.dropWhile] at h
  | cons a l ih =>
    rw [List.dropWhile_cons] at h
    split at h
    · exact ih h
    · next hp =>
      simp only [List.head?_cons, Option.some.injEq] at h
      subst h
      exact Bool.eq_false_iff.mpr hp

theorem dropWhile_eq_self {p : Nat → Bool} {l : List Nat}
    (h : ∀ c, l.head? = some c → p c = false) : l.dropWhile p = l := by
  cases l with
  | nil => rfl
  | cons a l => rw [List.dropWhile_cons, h a rfl]; simp

theorem getLast?_of_suffix {l s : List Nat} (h : s <:+ l) (hne : s ≠ []) :
    s.getLast? = l.getLast? := by
  obtain ⟨t, rfl⟩ := h
  exact (List.getLast?_append_of_ne_nil t hne).symm

theorem jsTrim_head_not_space {l : List Nat} {c : Nat}
    (h : (jsTrim l).head? = some c) : jsIsSpace c = false := by
  unfold jsTrim at h
  rw [List.head?_reverse] at h
  have hsuf : ((l.dropWhile jsIsSpace).reverse.dropWhile jsIsSpace)
      <:+ (l.dropWhile jsIsSpace).reverse := List.dropWhile_suffix _
  have hne : (l.dropWhile jsIsSpace).reverse.dropWhile jsIsSpace ≠ [] := by
    intro h0; rw [h0] at h; simp at h
  rw [getLast?_of_suffix hsuf hne, List.getLast?_reverse] at h
  exact dropWhile_head_false h

theorem jsTrim_last_not_space {l : List Nat} {c : Nat}
    (h : (jsTrim l).getLast? = some c) : jsIsSpace c = false := by
  unfold jsTrim at h
  rw [List.getLast?_reverse] at h
  exact dropWhile_head_false h

theorem jsTrim_of_clean {l : List Nat}
    (h1 : ∀ c, l.head? = some c → jsIsSpace c = false)
    (h2 : ∀ c, l.getLast? = some c → jsIsSpace c = false) :
    jsTrim l = l := by
  unfold jsTrim
  rw [dropWhile_eq_self h1,
      dropWhile_eq_self (fun c hc => h2 c (by rwa [List.head?_reverse] at hc))]
  exact List.reverse_reverse l

theorem jsToUpper_idem (c : Nat) : jsToUpper (jsToUpper c) = jsToUpper c := by
  unfold jsToUpper; split_ifs <;> omega

theorem jsToLower_idem (c : Nat) : jsToLower (jsToLower c) = jsToLower c := by
  unfold jsToLower; split_ifs <;> omega

theorem jsIsSpace_jsToUpper (c : Nat) : jsIsSpace (jsToUpper c) = jsIsSpace c := by
  unfold jsToUpper
  split_ifs with h
  · have h1 : jsIsSpace (c - 32) = false := by
      unfold jsIsSpace
      simp only [Bool.or_eq_false_iff, beq_eq_false_iff_ne, ne_eq]
      omega
    have h2 : jsIsSpace c = false := by
      unfold jsIsSpace
      simp only [Bool.or_eq_false_iff, beq_eq_false_iff_ne, ne_eq]
      omega
    rw [h1, h2]
  · rfl

theorem jsIsSpace_jsToLower (c : Nat) : jsIsSpace (jsToLower c) = jsIsSpace c := by
  unfold jsToLower
  split_ifs with h
  · have h1 : jsIsSpace (c + 32) = false := by
      unfold jsIsSpace
      simp only [Bool.or_eq_false_iff, beq_eq_false_iff_ne, ne_eq]
      omega
    have h2 : jsIsSpace c = false := by
      unfold jsIsSpace
      simp only [Bool.or_eq_false_iff, beq_eq_false_iff_ne, ne_eq]
      omega
    rw [h1, h2]
  · rfl

theorem shouldCapitalize_eq_spec (prev : Option (List Nat)) :
    shouldCapitalize prev = specShouldCapitalize prev := by
  cases prev with
  | none => rfl
  | some s =>
    unfold shouldCapitalize specShouldCapitalize
    cases h : (jsTrim s).getLast? with
    | none => simp [h]
    | some c =>
      simp only [h, Option.isNone_none, Option.isNone_some, Bool.false_or]
      simp [List.contains, List.elem]
      cases c == 46 <;> cases c == 33 <;> cases c == 63 <;> cases c == 58 <;> rfl

/-! ### Helper lemmas on the game operations -/

theorem nextTurn_players (g : GameState) (s1 s2 : List String) (now : Nat) :
    (nextTurn g s1 s2 now).players = g.players := by
  unfold nextTurn; split <;> rfl

theorem nextTurn_story (g : GameState) (s1 s2 : List String) (now : Nat) :
    (nextTurn g s1 s2 now).story = g.story := by
  unfold nextTurn; split <;> rfl

theorem mem_activeIds {ps : List (String × Player)} {x : String}
    (h : x ∈ activeIds ps) : isActiveId ps x = true :=
  List.of_mem_filter h

theorem nextBag_spec (g : GameState) (s1 s2 : List String)
    (h2 : 2 ≤ (activeIds g.players).length)
    (hp2 : s2.Perm (activeIds g.players)) :
    nextBag g s1 s2 ≠ [] ∧
    ∀ pid ∈ nextBag g s1 s2, isActiveId g.players pid = true := by
  unfold nextBag
  by_cases hemp : (filteredBag g s1).isEmpty
  · rw [if_pos hemp]
    constructor
    · intro h0
      rw [h0] at hp2
      have := hp2.length_eq
      simp at this
      omega
    · intro pid hm
      exact mem_activeIds (hp2.mem_iff.mp hm)
  · rw [if_neg hemp]
    constructor
    · intro h0
      rw [h0] at hemp
      exact hemp rfl
    · intro pid hm
      exact List.of_mem_filter hm

theorem lookup_setInactive_eq {ps : List (String × Player)} {pid : String} {p : Player}
    (h : lookupPlayer ps pid = some p) :
    lookupPlayer (ps.map (fun kv =>
        if kv.1 = pid then (kv.1, { kv.2 with isActive := false }) else kv)) pid
      = some { p with isActive := false } := by
  induction ps with
  | nil => simp [lookupPlayer] at h
  | cons kv rest ih =>
    by_cases hk : kv.1 = pid
    · rw [lookupPlayer, if_pos hk] at h
      injection h with h
      subst h
      simp only [List.map_cons, if_pos hk, lookupPlayer]
    · rw [lookupPlayer, if_neg hk] at h
      simp only [List.map_cons, if_neg hk, lookupPlayer]
      exact ih h

theorem lookup_setInactive_ne {ps : List (String × Player)} {pid q : String}
    (hq : q ≠ pid) :
    lookupPlayer (ps.map (fun kv =>
        if kv.1 = pid then (kv.1, { kv.2 with isActive := false }) else kv)) q
      = lookupPlayer ps q := by
  induction ps with
  | nil => rfl
  | cons kv rest ih =>
    by_cases hk : kv.1 = pid
    · simp only [List.map_cons, if_pos hk, lookupPlayer]
      rw [if_neg (by rw [hk]; exact fun hc => hq hc.symm), if_neg (by
        rw [hk]; exact fun hc => hq hc.symm)]
      exact ih
    · simp only [List.map_cons, if_neg hk, lookupPlayer]
      by_cases hkq : kv.1 = q
      · rw [if_pos hkq, if_pos hkq]
      · rw [if_neg hkq, if_neg hkq]
        exact ih

theorem lookup_append_none {ps : List (String × Player)} {pid : String}
    (h : lookupPlayer ps pid = none) (l : List (String × Player)) :
    lookupPlayer (ps ++ l) pid = lookupPlayer l pid := by
  induction ps with
  | nil => rfl
  | cons kv rest ih =>
    by_cases hk : kv.1 = pid
    · rw [lookupPlayer, if_pos hk] at h
      exact absurd h (by simp)
    · rw [lookupPlayer, if_neg hk] at h
      rw [List.cons_append, lookupPlayer, if_neg hk]
      exact ih h

/-! ### Claim theorems -/

/-- Claim C8 (confirmed): text normalization is a pure function of the
previous segment's text (or none) and the new text; the first character
of the trimmed input is capitalized iff there is no previous segment or
the previous segment's trimmed text ends in `.`, `!`, `?`, or `:`, and
lowercased otherwise; with previous segment "Hello." the input "world"
normalizes to "World", and with previous segment "world" the input
"Jumps" normalizes to "jumps". -/
theorem normalizeText_capitalization :
    (∀ (prev : Option (List Nat)) (t : List Nat),
       normalizeText prev t =
         if specShouldCapitalize prev then mapHead jsToUpper (jsTrim t)
         else mapHead jsToLower (jsTrim t)) ∧
    normalizeText (some (strCodes "Hello.")) (strCodes "world") = strCodes "World" ∧
    normalizeText (some (strCodes "world")) (strCodes "Jumps") = strCodes "jumps" := by
  refine ⟨?_, by decide, by decide⟩
  intro prev t
  rw [← shouldCapitalize_eq_spec]
  unfold normalizeText
  cases hT : jsTrim t with
  | nil => simp [mapHead]
  | cons c cs => simp [hT]

/-- Claim C9 (confirmed): text normalization is idempotent — normalizing
an already-normalized text against the same previous segment returns it
unchanged. -/
theorem normalizeText_idempotent :
    ∀ (prev : Option (List Nat)) (t : List Nat),
      normalizeText prev (normalizeText prev t) = normalizeText prev t := by
  intro prev t
  cases hT : jsTrim t with
  | nil =>
    have hu : normalizeText prev t = [] := by
      unfold normalizeText; rw [hT]; simp
    rw [hu]
    unfold normalizeText
    simp [jsTrim]
  | cons c cs =>
    have hhead : jsIsSpace c = false :=
      jsTrim_head_not_space (l := t) (by rw [hT]; rfl)
    have hlast : ∀ d, (c :: cs).getLast? = some d → jsIsSpace d = false := fun d hd =>
      jsTrim_last_not_space (l := t) (by rw [hT]; exact hd)
    cases hcap : shouldCapitalize prev with
    | true =>
      have hu : normalizeText prev t = jsToUpper c :: cs := by
        unfold normalizeText; rw [hT, hcap]; simp [mapHead]
      have htrim : jsTrim (jsToUpper c :: cs) = jsToUpper c :: cs := by
        apply jsTrim_of_clean
        · intro d hd
          simp only [List.head?_cons, Option.some.injEq] at hd
          subst hd
          rw [jsIsSpace_jsToUpper]; exact hhead
        · intro d hd
          cases cs with
          | nil =>
            simp only [List.getLast?_singleton, Option.some.injEq] at hd
            subst hd
            rw [jsIsSpace_jsToUpper]; exact hhead
          | cons e es =>
            rw [List.getLast?_cons_cons] at hd
            exact hlast d (by rw [List.getLast?_cons_cons]; exact hd)
      rw [hu]
      unfold normalizeText
      rw [htrim, hcap]
      simp [mapHead, jsToUpper_idem]
    | false =>
      have hu : normalizeText prev t = jsToLower c :: cs := by
        unfold normalizeText; rw [hT, hcap]; simp [mapHead]
      have htrim : jsTrim (jsToLower c :: cs) = jsToLower c :: cs := by
        apply jsTrim_of_clean
        · intro d hd
          simp only [List.head?_cons, Option.some.injEq] at hd
          subst hd
          rw [jsIsSpace_jsToLower]; exact hhead
        · intro d hd
          cases cs with
          | nil =>
            simp only [List.getLast?_singleton, Option.some.injEq] at hd
            subst hd
            rw [jsIsSpace_jsToLower]; exact hhead
          | cons e es =>
            rw [List.getLast?_cons_cons] at hd
            exact hlast d (by rw [List.getLast?_cons_cons]; exact hd)
      rw [hu]
      unfold normalizeText
      rw [htrim, hcap]
      simp [mapHead, jsToLower_idem]

/-- Claim C1, counterexample: on a document where it is Bob's turn, a
submission by Alice is not a no-op — the story grows and the turn
advances, because `submitWords` runs its story transaction and the
subsequent `nextTurn` without ever comparing the submitter to
`currentPlayerId`. -/
theorem submitWords_stale_not_noop :
    gC1.currentPlayerId = some "bob" ∧
    ¬((submitWords gC1 "alice" (strCodes "hi") "seg1" 5 [] [] 6).story = gC1.story ∧
      (submitWords gC1 "alice" (strCodes "hi") "seg1" 5 [] [] 6).currentPlayerId
        = gC1.currentPlayerId ∧
      (submitWords gC1 "alice" (strCodes "hi") "seg1" 5 [] [] 6).turnBag
        = gC1.turnBag) := by
  decide

/-- Claim C1 (corrected): when the submitting player differs from
`currentPlayerId`, `submitWords` does not abort — it still appends
exactly one segment, authored by the submitter, and still runs the turn
advance; there is no stale-turn check. -/
theorem submitWords_appends_and_advances (g : GameState) (pid : String)
    (text : List Nat) (segId : String) (now : Nat) (s1 s2 : List String) (now2 : Nat)
    (h : some pid ≠ g.currentPlayerId) :
    (submitWords g pid text segId now s1 s2 now2).story.length = g.story.length + 1 ∧
    (submitWords g pid text segId now s1 s2 now2).story.map (fun seg => seg.authorId)
      = g.story.map (fun seg => seg.authorId) ++ [pid] := by
  unfold submitWords
  rw [nextTurn_story]
  constructor
  · simp
  · simp

/-- Claim C1, witness for the corrected statement at a concrete stale
submission. -/
theorem submitWords_appends_and_advances_witness :
    some "alice" ≠ gC1.currentPlayerId ∧
    ((submitWords gC1 "alice" (strCodes "hi") "seg1" 5 [] [] 6).story.length
        = gC1.story.length + 1 ∧
      (submitWords gC1 "alice" (strCodes "hi") "seg1" 5 [] [] 6).story.map
          (fun seg => seg.authorId)
        = gC1.story.map (fun seg => seg.authorId) ++ ["alice"]) :=
  ⟨by decide,
   submitWords_appends_and_advances gC1 "alice" (strCodes "hi") "seg1" 5 [] [] 6
     (by decide)⟩

/-- Claim C2, counterexample: skipping Carol's turn leaves her
`totalResponseTime` at 5000ms and her `turnCount` at 2 — `nextTurn`
applies no `turnTimeLimit * 1000` penalty and no turn-count increment. -/
theorem nextTurn_skip_no_penalty :
    gC2.settings.turnTimeLimit = 30 ∧
    (lookupPlayer gC2.players "carol").map Player.totalResponseTime = some (some 5000) ∧
    (lookupPlayer gC2.players "carol").map Player.turnCount = some (some 2) ∧
    (lookupPlayer (nextTurn gC2 [] [] 7).players "carol").map Player.totalResponseTime
      = some (some 5000) ∧
    (lookupPlayer (nextTurn gC2 [] [] 7).players "carol").map Player.turnCount
      = some (some 2) ∧
    ¬((lookupPlayer (nextTurn gC2 [] [] 7).players "carol").map Player.totalResponseTime
        = some (some (5000 + 30 * 1000))) := by
  decide

/-- Claim C2 (corrected): on a PLAYING document with at least two active
players and a non-null `currentPlayerId`, a skip (the `nextTurn`
operation) leaves every player record — including the skipped player's
`totalResponseTime` and `turnCount` — and the story unchanged; the
source updates no fairness fields. -/
theorem nextTurn_preserves_stats_and_story (g : GameState)
    (s1 s2 : List String) (now : Nat)
    (h1 : g.status = GameStatus.PLAYING)
    (h2 : 2 ≤ (activeIds g.players).length)
    (h3 : g.currentPlayerId.isSome = true) :
    (nextTurn g s1 s2 now).players = g.players ∧
    (nextTurn g s1 s2 now).story = g.story :=
  ⟨nextTurn_players g s1 s2 now, nextTurn_story g s1 s2 now⟩

/-- Claim C2, witness at the concrete document of the counterexample. -/
theorem nextTurn_preserves_stats_and_story_witness :
    (gC2.status = GameStatus.PLAYING ∧ 2 ≤ (activeIds gC2.players).length ∧
      gC2.currentPlayerId.isSome = true) ∧
    ((nextTurn gC2 [] [] 7).players = gC2.players ∧
      (nextTurn gC2 [] [] 7).story = gC2.story) :=
  ⟨⟨by decide, by decide, by decide⟩,
   nextTurn_preserves_stats_and_story gC2 [] [] 7 (by decide) (by decide) (by decide)⟩

/-- Claim C3, counterexample: with exactly two active players, `leaveGame`
drops the active count to one but leaves `status` = PLAYING and
`currentPlayerId` untouched — the document does not become PAUSED from
this operation alone (the host page must invoke the separate `pauseGame`
operation). -/
theorem leaveGame_no_autopause :
    gC3.status = GameStatus.PLAYING ∧
    (activeIds gC3.players).length = 2 ∧
    isActiveId gC3.players "bob" = true ∧
    (activeIds (leaveGame gC3 "bob").players).length = 1 ∧
    ¬((leaveGame gC3 "bob").status = GameStatus.PAUSED ∧
      (leaveGame gC3 "bob").currentPlayerId = none) := by
  decide

/-- Claim C3 (corrected): applying `leaveGame` to one of the two active
players of a PLAYING document only deactivates that player; `status`
stays PLAYING and `currentPlayerId` is unchanged.  The transition to
PAUSED with a null `currentPlayerId` requires another operation to be
invoked (the host page's auto-pause monitor calling `pauseGame`). -/
theorem leaveGame_keeps_status (g : GameState) (pid : String)
    (h1 : g.status = GameStatus.PLAYING)
    (h2 : (activeIds g.players).length = 2)
    (h3 : isActiveId g.players pid = true) :
    (leaveGame g pid).status = GameStatus.PLAYING ∧
    (leaveGame g pid).currentPlayerId = g.currentPlayerId ∧
    isActiveId (leaveGame g pid).players pid = false ∧
    ∀ q, q ≠ pid → isActiveId (leaveGame g pid).players q = isActiveId g.players q := by
  refine ⟨h1, rfl, ?_, ?_⟩
  · unfold isActiveId at h3 ⊢
    cases hl : lookupPlayer g.players pid with
    | none => rw [hl] at h3; exact absurd h3 (by simp)
    | some p =>
      have := lookup_setInactive_eq hl
      rw [show (leaveGame g pid).players = g.players.map (fun kv =>
        if kv.1 = pid then (kv.1, { kv.2 with isActive := false }) else kv) from rfl, this]
  · intro q hq
    unfold isActiveId
    rw [show (leaveGame g pid).players = g.players.map (fun kv =>
      if kv.1 = pid then (kv.1, { kv.2 with isActive := false }) else kv) from rfl,
      lookup_setInactive_ne hq]

/-- Claim C3, witness at the concrete two-player document. -/
theorem leaveGame_keeps_status_witness :
    (gC3.status = GameStatus.PLAYING ∧ (activeIds gC3.players).length = 2 ∧
      isActiveId gC3.players "bob" = true) ∧
    ((leaveGame gC3 "bob").status = GameStatus.PLAYING ∧
      (leaveGame gC3 "bob").currentPlayerId = gC3.currentPlayerId ∧
      isActiveId (leaveGame gC3 "bob").players "bob" = false ∧
      ∀ q, q ≠ "bob" →
        isActiveId (leaveGame gC3 "bob").players q = isActiveId gC3.players q) :=
  ⟨⟨by decide, by decide, by decide⟩,
   leaveGame_keeps_status gC3 "bob" (by decide) (by decide) (by decide)⟩

/-- Claim C4, counterexample: joining a players node whose only active
player has `totalResponseTime` 12000ms creates the newcomer with no
`totalResponseTime` at all (undefined, rendered as 0), not 12000. -/
theorem joinGame_no_seeding :
    (activeIds psC4).length = 1 ∧
    lookupPlayer psC4 "zed" = none ∧
    (lookupPlayer psC4 "alice").map Player.totalResponseTime = some (some 12000) ∧
    (lookupPlayer (joinGameTxn psC4 "zed" "Zed" 50) "zed").map Player.totalResponseTime
      = some none ∧
    ¬((lookupPlayer (joinGameTxn psC4 "zed" "Zed" 50) "zed").map Player.totalResponseTime
        = some (some 12000)) := by
  decide

/-- Claim C4 (corrected): `joinGame` creates a brand-new player (id absent
from a non-empty, non-full players node) active but with no
`totalResponseTime` and no `turnCount` fields — there is no fairness
seeding from the existing players' totals. -/
theorem joinGame_new_player_no_stats (ps : List (String × Player))
    (pid nm : String) (now : Nat)
    (hne : ps ≠ []) (habs : lookupPlayer ps pid = none) (hcap : ps.length < 20) :
    ∃ p, lookupPlayer (joinGameTxn ps pid nm now) pid = some p ∧
      p.totalResponseTime = none ∧ p.turnCount = none ∧ p.isActive = true := by
  have hempty : ps.isEmpty = false := by
    cases ps with
    | nil => exact absurd rfl hne
    | cons kv rest => rfl
  unfold joinGameTxn
  rw [hempty]
  simp only [Bool.false_eq_true, if_false, habs, Option.isSome_none,
    if_neg (Nat.not_le.mpr hcap)]
  refine ⟨{ id := pid, name := nm.take 12,
            color := PLAYER_COLORS.getD (ps.length % PLAYER_COLORS.length) "",
            isActive := true, lastSeen := now }, ?_, rfl, rfl, rfl⟩
  rw [lookup_append_none habs]
  simp [lookupPlayer]

/-- Claim C4, witness at the concrete one-player node. -/
theorem joinGame_new_player_no_stats_witness :
    (psC4 ≠ [] ∧ lookupPlayer psC4 "zed" = none ∧ psC4.length < 20) ∧
    (∃ p, lookupPlayer (joinGameTxn psC4 "zed" "Zed" 50) "zed" = some p ∧
      p.totalResponseTime = none ∧ p.turnCount = none ∧ p.isActive = true) :=
  ⟨⟨by decide, by decide, by decide⟩,
   joinGame_new_player_no_stats psC4 "zed" "Zed" 50 (by decide) (by decide) (by decide)⟩

/-- Claim C5 (code bug): advancing from Alice's turn with Bob next in the
bag leaves `lastPlayerId` = "bob" — the newly selected player — instead
of "alice", the player who just completed the turn, because the source
assigns `game.lastPlayerId = game.currentPlayerId` only after
`game.currentPlayerId` has been overwritten with the shifted player. -/
theorem nextTurn_lastPlayerId_is_new_player :
    gC5.currentPlayerId = some "alice" ∧
    (nextTurn gC5 [] [] 9).currentPlayerId = some "bob" ∧
    (nextTurn gC5 [] [] 9).lastPlayerId = some "bob" ∧
    (nextTurn gC5 [] [] 9).lastPlayerId ≠ some "alice" := by
  decide

/-- Claim C6 (code bug): with fewer than two active players `startGame`
leaves the document unchanged, and with two active players it sets
status PLAYING, an active `currentPlayerId`, the rest of the shuffle as
`turnBag` and `timerStartedAt = now` — but it sets `timer` to the
hardcoded 30, not to `settings.turnTimeLimit` (here 60), against its own
comment "should come from settings". -/
theorem startGame_timer_hardcoded :
    startGame gC6solo ["alice"] 11 = gC6solo ∧
    gC6.settings.turnTimeLimit = 60 ∧
    (startGame gC6 ["alice", "bob"] 11).status = GameStatus.PLAYING ∧
    (startGame gC6 ["alice", "bob"] 11).currentPlayerId = some "alice" ∧
    isActiveId gC6.players "alice" = true ∧
    (startGame gC6 ["alice", "bob"] 11).turnBag = ["bob"] ∧
    (startGame gC6 ["alice", "bob"] 11).timerStartedAt = some 11 ∧
    (startGame gC6 ["alice", "bob"] 11).timer = 30 ∧
    (startGame gC6 ["alice", "bob"] 11).timer ≠ gC6.settings.turnTimeLimit := by
  decide

/-- Claim C7 (confirmed): when at least two players are active and the
shuffles are permutations of the active ids, the `nextTurn` scheduling
pass selects a `currentPlayerId` from the active set and leaves no
inactive (or unknown) id in the resulting `turnBag`. -/
theorem nextTurn_selects_active (g : GameState) (s1 s2 : List String) (now : Nat)
    (h2 : 2 ≤ (activeIds g.players).length)
    (hp1 : s1.Perm (activeIds g.players))
    (hp2 : s2.Perm (activeIds g.players)) :
    (∃ pid, (nextTurn g s1 s2 now).currentPlayerId = some pid ∧
            isActiveId g.players pid = true) ∧
    (∀ pid ∈ (nextTurn g s1 s2 now).turnBag, isActiveId g.players pid = true) := by
  obtain ⟨hne, hmem⟩ := nextBag_spec g s1 s2 h2 hp2
  have hlt : ¬((activeIds g.players).length < 2) := by omega
  unfold nextTurn
  rw [if_neg hlt]
  cases hbag : nextBag g s1 s2 with
  | nil => exact absurd hbag hne
  | cons x xs =>
    constructor
    · exact ⟨x, by simp [hbag], hmem x (by rw [hbag]; exact List.mem_cons_self x xs)⟩
    · intro pid hp
      simp only [hbag] at hp
      exact hmem pid (by rw [hbag]; exact List.mem_cons_of_mem x hp)

/-- Claim C7, witness: a concrete two-player document with an empty bag,
shuffled by the identity permutation of its active ids. -/
theorem nextTurn_selects_active_witness :
    (2 ≤ (activeIds gC7.players).length ∧
      (activeIds gC7.players).Perm (activeIds gC7.players)) ∧
    ((∃ pid, (nextTurn gC7 (activeIds gC7.players) (activeIds gC7.players) 4).currentPlayerId
          = some pid ∧ isActiveId gC7.players pid = true) ∧
      (∀ pid ∈ (nextTurn gC7 (activeIds gC7.players) (activeIds gC7.players) 4).turnBag,
        isActiveId gC7.players pid = true)) :=
  ⟨⟨by decide, List.Perm.refl _⟩,
   nextTurn_selects_active gC7 (activeIds gC7.players) (activeIds gC7.players) 4
     (by decide) (List.Perm.refl _) (List.Perm.refl _)⟩

/-- Claim C10 (confirmed): for a player id present in the players map,
`leaveGame` only flips that player's `isActive` to false; the player's
other fields, every other player, and every session field (status,
currentPlayerId, turnBag, lastPlayerId, timer, timerStartedAt, settings,
story) are unchanged. -/
theorem leaveGame_frame (g : GameState) (pid : String) (p : Player)
    (h : lookupPlayer g.players pid = some p) :
    (leaveGame g pid).status = g.status ∧
    (leaveGame g pid).currentPlayerId = g.currentPlayerId ∧
    (leaveGame g pid).turnBag = g.turnBag ∧
    (leaveGame g pid).lastPlayerId = g.lastPlayerId ∧
    (leaveGame g pid).timer = g.timer ∧
    (leaveGame g pid).timerStartedAt = g.timerStartedAt ∧
    (leaveGame g pid).settings = g.settings ∧
    (leaveGame g pid).story = g.story ∧
    lookupPlayer (leaveGame g pid).players pid = some { p with isActive := false } ∧
    ∀ q, q ≠ pid → lookupPlayer (leaveGame g pid).players q = lookupPlayer g.players q :=
  ⟨rfl, rfl, rfl, rfl, rfl, rfl, rfl, rfl, lookup_setInactive_eq h,
   fun _ hq => lookup_setInactive_ne hq⟩

/-- Claim C10, witness at a fully populated three-player document. -/
theorem leaveGame_frame_witness :
    lookupPlayer gC10.players "alice" = some pAliceStats ∧
    ((leaveGame gC10 "alice").status = gC10.status ∧
      (leaveGame gC10 "alice").currentPlayerId = gC10.currentPlayerId ∧
      (leaveGame gC10 "alice").turnBag = gC10.turnBag ∧
      (leaveGame gC10 "alice").lastPlayerId = gC10.lastPlayerId ∧
      (leaveGame gC10 "alice").timer = gC10.timer ∧
      (leaveGame gC10 "alice").timerStartedAt = gC10.timerStartedAt ∧
      (leaveGame gC10 "alice").settings = gC10.settings ∧
      (leaveGame gC10 "alice").story = gC10.story ∧
      lookupPlayer (leaveGame gC10 "alice").players "alice"
        = some { pAliceStats with isActive := false } ∧
      ∀ q, q ≠ "alice" →
        lookupPlayer (leaveGame gC10 "alice").players q = lookupPlayer gC10.players q) :=
  ⟨by decide, leaveGame_frame gC10 "alice" pAliceStats (by decide)⟩

end OneWordStory
